import Mathlib

/-!
Shallow embedding of the gaming-rewards-protocol Anchor program
(src/contracts/src): the treasury ledger, the user reward account with its
claim rate limiting, the oracle stake-and-reputation registry, and the
multi-layer verification state machine.

Conventions of the embedding:
* `u64` / `u32` / `u8` values are `Nat`s; where the Rust code uses
  `checked_add` / `checked_sub` the embedding checks the same bound
  explicitly against `2 ^ 64` (resp. `2 ^ 32`).  The unchecked `u64`
  multiplication in `Treasury::add_yield` is embedded as wrapping
  multiplication modulo `2 ^ 64`, the release-profile semantics of `*`.
* `i64` timestamps are embedded as `Int`.
* Fallible methods (`Result<T>` in Anchor) return `Except GamingRewardsError`.
  An `Except.error` models the handler returning `Err`, in which case the
  Solana runtime rolls back every account write of the transaction, so the
  caller's state is unchanged; sequencing functions below therefore keep the
  previous state on error.
* `Pubkey` is embedded as an opaque `Nat`; `Vec<u8>` as `List Nat`.
-/

namespace GRP

/-- Modulus of the Rust `u64` type. -/
def U64 : Nat := 2 ^ 64

/-- Modulus of the Rust `u32` type. -/
def U32 : Nat := 2 ^ 32

/-- Rust `u64::checked_add`: `none` exactly when the sum does not fit in 64 bits. -/
def checkedAdd64 (a b : Nat) : Option Nat :=
  if a + b < U64 then some (a + b) else none

/-- Rust `u64::checked_sub` (same definition for `u32`): `none` on underflow. -/
def checkedSub (a b : Nat) : Option Nat :=
  if b ≤ a then some (a - b) else none

/-- Rust `u32::checked_add`: `none` exactly when the sum does not fit in 32 bits. -/
def checkedAdd32 (a b : Nat) : Option Nat :=
  if a + b < U32 then some (a + b) else none

/-- Rust `u8::saturating_add` (used for `verification_level`). -/
def satAdd8 (a b : Nat) : Nat :=
  min (a + b) 255

/-- Rust wrapping `u64` multiplication: the unchecked `*` of the source in the
release profile. -/
def wrapMul64 (a b : Nat) : Nat :=
  (a * b) % U64

/-- Error codes of `src/contracts/src/errors.rs` (`GamingRewardsError`),
together with the extra variants that `account_structs.rs` references
(`ArithmeticOverflow`, `ClaimTooFrequent`, `OracleNotActive`,
`InsufficientStakeToSlash`, `AlreadyStaking`, `InvalidStakeAmount`). -/
inductive GamingRewardsError where
  | Unauthorized
  | InvalidYieldAmount
  | InsufficientRewardsPool
  | RateLimitExceeded
  | HarvestTooFrequent
  | InsufficientOracleStake
  | InvalidSlashAmount
  | InvalidOracleSignature
  | InvalidTimestamp
  | StaleVerification
  | FraudDetected
  | InvalidSteamId
  | InvalidSteamTicket
  | InvalidSessionId
  | InvalidWalletSignature
  | InvalidMessage
  | InvalidZKPProof
  | InvalidZKPInputs
  | InvalidAttestationId
  | InvalidVerificationLevel
  | InvalidRubyScore
  | SteamSessionRequired
  | OAuthWalletRequired
  | InsufficientVerification
  | InsufficientMultiFactor
  | InactiveOracle
  | Overflow
  | Underflow
  | InvalidWallet
  | ArithmeticOverflow
  | ClaimTooFrequent
  | OracleNotActive
  | InsufficientStakeToSlash
  | AlreadyStaking
  | InvalidStakeAmount
  deriving DecidableEq, Repr

/-- Constant from `src/contracts/src/constants.rs`: maximum verification age
for oracle signatures (5 minutes). -/
def MAX_VERIFICATION_AGE : Int := 300

/-- Constant from `constants.rs`: maximum claim amount per transaction. -/
def MAX_CLAIM_AMOUNT : Nat := 10000000000

/-- Constant from `constants.rs`: minimum oracle stake required. -/
def MIN_ORACLE_STAKE : Nat := 1000000000

/-- Constant from `constants.rs`: claim rate limit window (1 hour). -/
def CLAIM_RATE_LIMIT_WINDOW : Int := 3600

/-- Constant from `constants.rs`: maximum claims per rate limit window. -/
def MAX_CLAIMS_PER_WINDOW : Nat := 10

/-- Constant from `constants.rs`: minimum time between claims (5 minutes). -/
def MIN_TIME_BETWEEN_CLAIMS : Int := 300

/-- Constant from `constants.rs`: oracle reputation threshold for trusted
status. -/
def ORACLE_REPUTATION_THRESHOLD : Nat := 100

/-- Oracle public key referenced by the program (`crate::constants::ORACLE_PUBKEY`;
its concrete value is deployment configuration and never matters to the
properties proved here — keys are opaque `Nat`s). -/
def ORACLE_PUBKEY : Nat := 0

/-- Treasury account of `src/contracts/src/account_structs.rs`. -/
structure Treasury where
  authority : Nat
  total_balance : Nat
  user_rewards_pool : Nat
  treasury_reserve : Nat
  total_distributed : Nat
  last_harvest_timestamp : Int
  emergency_withdrawal_cooldown : Int
  treasury_fees : Nat
  active_stakers : Nat
  total_staked : Nat
  bump : Nat
  deriving DecidableEq, Repr

/-- Embedding of `Treasury::add_yield` (`account_structs.rs` lines 48-63):
requires a positive yield, computes `user_share = yield_amount * 50 / 100`
with an unchecked (wrapping) multiplication, `treasury_share` as the
remainder, and adds the shares to the three balance fields with
`checked_add`, failing with `ArithmeticOverflow` on overflow. -/
def Treasury.add_yield (t : Treasury) (yield_amount : Nat) :
    Except GamingRewardsError Treasury :=
  if 0 < yield_amount then
    let user_share := wrapMul64 yield_amount 50 / 100
    let treasury_share := yield_amount - user_share
    match checkedAdd64 t.user_rewards_pool user_share with
    | none => .error .ArithmeticOverflow
    | some p =>
      match checkedAdd64 t.treasury_reserve treasury_share with
      | none => .error .ArithmeticOverflow
      | some r =>
        match checkedAdd64 t.total_balance yield_amount with
        | none => .error .ArithmeticOverflow
        | some b =>
          .ok { t with user_rewards_pool := p, treasury_reserve := r, total_balance := b }
  else .error .InvalidYieldAmount

/-- Embedding of `Treasury::subtract_from_rewards_pool` (`account_structs.rs`
lines 66-76): requires `amount > 0` and a sufficient pool, then decrements
the pool and increments `total_distributed` with checked arithmetic. -/
def Treasury.subtract_from_rewards_pool (t : Treasury) (amount : Nat) :
    Except GamingRewardsError Treasury :=
  if 0 < amount then
    if amount ≤ t.user_rewards_pool then
      match checkedSub t.user_rewards_pool amount with
      | none => .error .ArithmeticOverflow
      | some p =>
        match checkedAdd64 t.total_distributed amount with
        | none => .error .ArithmeticOverflow
        | some d =>
          .ok { t with user_rewards_pool := p, total_distributed := d }
    else .error .InsufficientRewardsPool
  else .error .InvalidYieldAmount

/-- Embedding of `Treasury::add_fee` (`account_structs.rs` lines 79-83). -/
def Treasury.add_fee (t : Treasury) (fee_amount : Nat) :
    Except GamingRewardsError Treasury :=
  match checkedAdd64 t.treasury_fees fee_amount with
  | none => .error .ArithmeticOverflow
  | some f => .ok { t with treasury_fees := f }

/-- Treasury with every field zero (the state right after initialization). -/
def treasuryZero : Treasury :=
  { authority := 0, total_balance := 0, user_rewards_pool := 0
    treasury_reserve := 0, total_distributed := 0, last_harvest_timestamp := 0
    emergency_withdrawal_cooldown := 0, treasury_fees := 0, active_stakers := 0
    total_staked := 0, bump := 0 }

/-- User reward account of `account_structs.rs`. -/
structure UserReward where
  user : Nat
  total_claimed : Nat
  last_claim_timestamp : Int
  claims_in_window : Nat
  window_start_timestamp : Int
  is_staking : Bool
  staking_start_timestamp : Int
  staked_amount : Nat
  reputation_score : Nat
  achievements_verified : Nat
  bump : Nat
  deriving DecidableEq, Repr

/-- Embedding of `UserReward::validate_claim` (`account_structs.rs` lines
126-148): resets the rate-limit window when it has elapsed, then checks the
per-window claim count and the minimum spacing between claims.  The `ok`
value is the (possibly window-reset) account; an error rolls the account
back. -/
def UserReward.validate_claim (u : UserReward) (current_timestamp : Int) :
    Except GamingRewardsError UserReward :=
  let u1 :=
    if CLAIM_RATE_LIMIT_WINDOW ≤ current_timestamp - u.window_start_timestamp then
      { u with claims_in_window := 0, window_start_timestamp := current_timestamp }
    else u
  if u1.claims_in_window < MAX_CLAIMS_PER_WINDOW then
    if MIN_TIME_BETWEEN_CLAIMS ≤ current_timestamp - u1.last_claim_timestamp then
      .ok u1
    else .error .ClaimTooFrequent
  else .error .RateLimitExceeded

/-- Embedding of `UserReward::update_claim` (`account_structs.rs` lines
151-155): `checked_add(amount).unwrap_or(total_claimed)` keeps the old
`total_claimed` on overflow, the timestamp is overwritten, and
`claims_in_window` is incremented with the same `unwrap_or` pattern.  The
method is infallible (returns no `Result`). -/
def UserReward.update_claim (u : UserReward) (amount : Nat) (timestamp : Int) :
    UserReward :=
  { u with
    total_claimed := (checkedAdd64 u.total_claimed amount).getD u.total_claimed
    last_claim_timestamp := timestamp
    claims_in_window := (checkedAdd32 u.claims_in_window 1).getD u.claims_in_window }

/-- One claim interaction with the user reward account as performed by
`claim_reward::handler`: `validate_claim` at the current time, and on success
`update_claim` with the claimed amount.  An error rolls everything back. -/
def claim_step (u : UserReward) (amount : Nat) (now : Int) :
    Except GamingRewardsError UserReward :=
  match u.validate_claim now with
  | .error e => .error e
  | .ok v => .ok (v.update_claim amount now)

/-- A sequence of claim attempts (amount, time); a failed attempt leaves the
account unchanged (transaction rollback). -/
def run_claims (u : UserReward) (steps : List (Nat × Int)) : UserReward :=
  steps.foldl
    (fun s p =>
      match claim_step s p.1 p.2 with
      | .ok v => v
      | .error _ => s) u

/-- Oracle status of `account_structs.rs`. -/
inductive OracleStatus where
  | Active
  | Inactive
  | Slashed
  | Suspended
  deriving DecidableEq, Repr

/-- Oracle account of `account_structs.rs`. -/
structure OracleAccount where
  oracle : Nat
  stake_amount : Nat
  reputation_score : Nat
  successful_verifications : Nat
  failed_verifications : Nat
  last_verification_timestamp : Int
  status : OracleStatus
  slash_count : Nat
  last_slash_timestamp : Int
  bump : Nat
  deriving DecidableEq, Repr

/-- Embedding of `OracleAccount::validate_stake` (`account_structs.rs` lines
234-238): stake must reach the minimum and the status must be `Active`.
The method takes `&self` and mutates nothing. -/
def OracleAccount.validate_stake (o : OracleAccount) (min_stake : Nat) :
    Except GamingRewardsError Unit :=
  if min_stake ≤ o.stake_amount then
    if o.status = OracleStatus.Active then .ok ()
    else .error .OracleNotActive
  else .error .InsufficientOracleStake

/-- Embedding of `OracleAccount::update_reputation` (`account_structs.rs`
lines 241-259): on success the successful counter and the reputation are
incremented with `checked_add(1).unwrap_or(old)`; on failure the failed
counter is incremented the same way and the reputation is decremented with
`saturating_sub` (truncated `Nat` subtraction).  Afterwards the status
becomes `Suspended` when the new reputation is below 50, `Active` when it is
at least `ORACLE_REPUTATION_THRESHOLD`, and is otherwise left as it was.  The trailing status-update phase of the
source method is split out as `statusFromReputation`. -/
def statusFromReputation (o : OracleAccount) : OracleAccount :=
  if o.reputation_score < 50 then { o with status := OracleStatus.Suspended }
  else if ORACLE_REPUTATION_THRESHOLD ≤ o.reputation_score then
    { o with status := OracleStatus.Active }
  else o

def OracleAccount.update_reputation (o : OracleAccount) (success : Bool) :
    OracleAccount :=
  statusFromReputation
    (if success then
      { o with
        successful_verifications :=
          (checkedAdd32 o.successful_verifications 1).getD o.successful_verifications
        reputation_score :=
          (checkedAdd32 o.reputation_score 1).getD o.reputation_score }
    else
      { o with
        failed_verifications :=
          (checkedAdd32 o.failed_verifications 1).getD o.failed_verifications
        reputation_score := o.reputation_score - 1 })

/-- Embedding of `OracleAccount::slash` (`account_structs.rs` lines 262-275):
requires `stake_amount ≥ slash_amount`, subtracts the stake and increments
`slash_count` with checked arithmetic, then downgrades the status to
`Slashed` when the remaining stake is below `MIN_ORACLE_STAKE`.  Returns the
slashed amount. -/
def OracleAccount.slash (o : OracleAccount) (slash_amount : Nat) :
    Except GamingRewardsError (OracleAccount × Nat) :=
  if slash_amount ≤ o.stake_amount then
    match checkedSub o.stake_amount slash_amount with
    | none => .error .ArithmeticOverflow
    | some s =>
      match checkedAdd32 o.slash_count 1 with
      | none => .error .ArithmeticOverflow
      | some c =>
        let o1 := { o with stake_amount := s, slash_count := c }
        if o1.stake_amount < MIN_ORACLE_STAKE then
          .ok ({ o1 with status := OracleStatus.Slashed }, slash_amount)
        else .ok (o1, slash_amount)
  else .error .InsufficientStakeToSlash

/-- Steam session ticket (`src/contracts/src/security/verification.rs`). -/
structure SteamSessionTicket where
  ticket : List Nat
  steam_id : Nat
  timestamp : Int
  session_id : List Nat
  deriving DecidableEq, Repr

/-- OAuth + wallet signature data (`verification.rs`). -/
structure OAuthWalletSignature where
  steam_id : Nat
  wallet_pubkey : Nat
  signature : List Nat
  message : List Nat
  timestamp : Int
  deriving DecidableEq, Repr

/-- Zero-knowledge proof attestation data (`verification.rs`). -/
structure ZKPAttestation where
  proof : List Nat
  public_inputs : List Nat
  attestation_id : List Nat
  issuer : Nat
  timestamp : Int
  deriving DecidableEq, Repr

/-- Multi-factor verification data (`verification.rs`). -/
structure MultiFactorVerification where
  steam_achievements : List Nat
  wallet_nfts : List Nat
  on_chain_activity : List Nat
  ruby_score : Nat
  verification_level : Nat
  deriving DecidableEq, Repr

/-- User verification profile account (`verification.rs` lines 48-62). -/
structure UserVerificationProfile where
  user : Nat
  steam_id : Nat
  wallet_pubkey : Nat
  verification_level : Nat
  steam_session_valid : Bool
  oauth_wallet_linked : Bool
  zkp_attestations : List ZKPAttestation
  multi_factor_score : Nat
  last_verification : Int
  total_verifications : Nat
  fraud_detected : Bool
  deriving DecidableEq, Repr

/-- Embedding of `UserVerificationProfile::verify_steam_session`
(`verification.rs` lines 81-104).  Checks, in source order: fraud flag,
matching `steam_id`, non-empty oracle signature (the canonical message
`steam_id:timestamp:session_id` is built but not otherwise used by any
check), ticket timestamp not in the future and at most
`MAX_VERIFICATION_AGE` old.  On success sets `steam_session_valid`, records
the verification time and increments `total_verifications` with
`checked_add(1).ok_or(Overflow)`.  Note: `verification_level` is not
touched.  `now` is `Clock::get()?.unix_timestamp`. -/
def UserVerificationProfile.verify_steam_session (p : UserVerificationProfile)
    (ticket : SteamSessionTicket) (oracle_signature : List Nat) (now : Int) :
    Except GamingRewardsError (UserVerificationProfile × Bool) :=
  if p.fraud_detected then .error .FraudDetected
  else if ticket.steam_id ≠ p.steam_id then .error .InvalidSteamId
  else if oracle_signature = [] then .error .InvalidOracleSignature
  else if ¬ ticket.timestamp ≤ now then .error .InvalidTimestamp
  else if ¬ now - MAX_VERIFICATION_AGE ≤ ticket.timestamp then .error .StaleVerification
  else
    match checkedAdd64 p.total_verifications 1 with
    | none => .error .Overflow
    | some tv =>
      .ok ({ p with steam_session_valid := true, last_verification := now
                    total_verifications := tv }, true)

/-- Embedding of `UserVerificationProfile::verify_oauth_wallet`
(`verification.rs` lines 107-129).  Checks fraud flag, matching `steam_id`,
matching wallet key, non-empty wallet signature (again, the canonical
message is built but unused by the checks), and timestamp freshness.  On
success links the wallet, bumps `verification_level` with `saturating_add`,
and records the verification time. -/
def UserVerificationProfile.verify_oauth_wallet (p : UserVerificationProfile)
    (oauth_data : OAuthWalletSignature) (now : Int) :
    Except GamingRewardsError (UserVerificationProfile × Bool) :=
  if p.fraud_detected then .error .FraudDetected
  else if oauth_data.steam_id ≠ p.steam_id then .error .InvalidSteamId
  else if oauth_data.wallet_pubkey ≠ p.wallet_pubkey then .error .InvalidWallet
  else if oauth_data.signature = [] then .error .InvalidWalletSignature
  else if ¬ oauth_data.timestamp ≤ now then .error .InvalidTimestamp
  else if ¬ now - MAX_VERIFICATION_AGE ≤ oauth_data.timestamp then .error .StaleVerification
  else
    .ok ({ p with oauth_wallet_linked := true
                  verification_level := satAdd8 p.verification_level 1
                  last_verification := now }, true)

/-- Embedding of `UserVerificationProfile::add_zkp_attestation`
(`verification.rs` lines 132-149): fraud flag, trusted issuer, timestamp
freshness, non-empty proof; on success appends the attestation, bumps the
level and records the time. -/
def UserVerificationProfile.add_zkp_attestation (p : UserVerificationProfile)
    (attestation : ZKPAttestation) (now : Int) :
    Except GamingRewardsError (UserVerificationProfile × Bool) :=
  if p.fraud_detected then .error .FraudDetected
  else if attestation.issuer ≠ ORACLE_PUBKEY then .error .Unauthorized
  else if ¬ attestation.timestamp ≤ now then .error .InvalidTimestamp
  else if ¬ now - MAX_VERIFICATION_AGE ≤ attestation.timestamp then .error .StaleVerification
  else if attestation.proof = [] then .error .InvalidZKPProof
  else
    .ok ({ p with zkp_attestations := p.zkp_attestations ++ [attestation]
                  verification_level := satAdd8 p.verification_level 1
                  last_verification := now }, true)

/-- Embedding of `UserVerificationProfile::verify_multi_factor`
(`verification.rs` lines 152-187): fraud flag, then session and wallet must
already be verified; the score accumulates 25 points per present signal via
`checked_add(25).ok_or(Overflow)` starting from 0, replaces the stored
score, and the level is bumped. -/
def UserVerificationProfile.verify_multi_factor (p : UserVerificationProfile)
    (mfa_data : MultiFactorVerification) (now : Int) :
    Except GamingRewardsError (UserVerificationProfile × Bool) :=
  if p.fraud_detected then .error .FraudDetected
  else if ¬ p.steam_session_valid then .error .SteamSessionRequired
  else if ¬ p.oauth_wallet_linked then .error .OAuthWalletRequired
  else
    let score : Option Nat := do
      let s1 ←
        if mfa_data.steam_achievements ≠ [] then checkedAdd64 0 25 else some 0
      let s2 ←
        if mfa_data.wallet_nfts ≠ [] then checkedAdd64 s1 25 else some s1
      let s3 ←
        if mfa_data.on_chain_activity ≠ [] then checkedAdd64 s2 25 else some s2
      if 0 < mfa_data.ruby_score then checkedAdd64 s3 25 else some s3
    match score with
    | none => .error .Overflow
    | some s =>
      .ok ({ p with multi_factor_score := s
                    verification_level := satAdd8 p.verification_level 1
                    last_verification := now }, true)

/-- Embedding of `UserVerificationProfile::is_eligible_for_rewards`
(`verification.rs` lines 190-198): each unmet requirement is reported as an
error by `require!`; only a profile meeting all of them gets `Ok(true)`. -/
def UserVerificationProfile.is_eligible_for_rewards (p : UserVerificationProfile) :
    Except GamingRewardsError Bool :=
  if p.fraud_detected then .error .FraudDetected
  else if ¬ p.steam_session_valid then .error .SteamSessionRequired
  else if ¬ p.oauth_wallet_linked then .error .OAuthWalletRequired
  else if ¬ 2 ≤ p.verification_level then .error .InsufficientVerification
  else if ¬ 50 ≤ p.multi_factor_score then .error .InsufficientMultiFactor
  else .ok true

/-- Embedding of `UserVerificationProfile::mark_fraudulent`
(`verification.rs` lines 201-207): sets the fraud flag and zeroes the trust
fields.  Infallible, no `Result`. -/
def UserVerificationProfile.mark_fraudulent (p : UserVerificationProfile) :
    UserVerificationProfile :=
  { p with fraud_detected := true, steam_session_valid := false
           oauth_wallet_linked := false, verification_level := 0
           multi_factor_score := 0 }

/-- One call against a verification profile: the four mutating entry points
of the state machine, each carrying its own input data and clock reading. -/
inductive ProfileOp where
  | verifySession (ticket : SteamSessionTicket) (sig : List Nat) (now : Int)
  | verifyWallet (oauth_data : OAuthWalletSignature) (now : Int)
  | addAttestation (attestation : ZKPAttestation) (now : Int)
  | multiFactor (mfa_data : MultiFactorVerification) (now : Int)

/-- Dispatch one profile operation. -/
def applyProfileOp (p : UserVerificationProfile) (op : ProfileOp) :
    Except GamingRewardsError (UserVerificationProfile × Bool) :=
  match op with
  | .verifySession t sig now => p.verify_steam_session t sig now
  | .verifyWallet d now => p.verify_oauth_wallet d now
  | .addAttestation a now => p.add_zkp_attestation a now
  | .multiFactor m now => p.verify_multi_factor m now

/-- Run a sequence of profile operations; a failing call leaves the profile
unchanged (transaction rollback). -/
def runProfileOps (p : UserVerificationProfile) (ops : List ProfileOp) :
    UserVerificationProfile :=
  ops.foldl
    (fun s op =>
      match applyProfileOp s op with
      | .ok r => r.1
      | .error _ => s) p

/-- Validation prefix of `claim_reward::handler`
(`src/contracts/src/instructions/claim_reward.rs` lines 21-42), in source
order: positive claim amount, claim amount at most the current rewards pool,
`UserReward::validate_claim` at the current time, oracle stake validation,
verification-timestamp freshness (`now - timestamp ≤ MAX_VERIFICATION_AGE`,
where the i64 `checked_sub(..).unwrap_or(0)` cannot underflow in the `Int`
model), and the Ed25519 oracle signature check.  Signature verification is
an external primitive (spec section 6), embedded as the boolean
`signature_valid`.  The `ok` value is the user reward account after
`validate_claim` (with a possible window reset). -/
def claim_reward_validate (treasury : Treasury) (user_reward : UserReward)
    (oracle_account : OracleAccount) (now timestamp : Int)
    (signature_valid : Bool) (claim_amount : Nat) :
    Except GamingRewardsError UserReward :=
  if 0 < claim_amount then
    if claim_amount ≤ treasury.user_rewards_pool then
      match user_reward.validate_claim now with
      | .error e => .error e
      | .ok u1 =>
        match oracle_account.validate_stake MIN_ORACLE_STAKE with
        | .error e => .error e
        | .ok _ =>
          if now - timestamp ≤ MAX_VERIFICATION_AGE then
            if signature_valid then .ok u1
            else .error .InvalidOracleSignature
          else .error .StaleVerification
    else .error .InsufficientRewardsPool
  else .error .InvalidYieldAmount

/-- Unfolded form of `Treasury.subtract_from_rewards_pool`: the guarded
subtraction of the pool can never fail once `amount ≤ user_rewards_pool`
holds, so the only remaining failure is the overflow of
`total_distributed + amount`. -/
theorem subtract_from_rewards_pool_eq (t : Treasury) (amount : Nat) :
    t.subtract_from_rewards_pool amount =
      if 0 < amount then
        if amount ≤ t.user_rewards_pool then
          if t.total_distributed + amount < U64 then
            Except.ok { t with user_rewards_pool := t.user_rewards_pool - amount
                               total_distributed := t.total_distributed + amount }
          else Except.error GamingRewardsError.ArithmeticOverflow
        else Except.error GamingRewardsError.InsufficientRewardsPool
      else Except.error GamingRewardsError.InvalidYieldAmount := by
  unfold Treasury.subtract_from_rewards_pool checkedSub checkedAdd64
  by_cases h0 : 0 < amount <;> by_cases hp : amount ≤ t.user_rewards_pool <;>
    by_cases ho : t.total_distributed + amount < U64 <;> simp [h0, hp, ho]

/-- Treasury state refuting the success-iff part of C1: the pool funds are
sufficient but `total_distributed` sits at `u64::MAX`. -/
def c1t : Treasury :=
  { treasuryZero with total_balance := 1, user_rewards_pool := 1
                      total_distributed := U64 - 1 }

/-- C1 counterexample: claim C1 states that the debit succeeds whenever
`amount > 0` and `amount ≤ user_rewards_pool`.  On the treasury `c1t`
(pool = 1, `total_distributed` = `u64::MAX`) a claim of 1 satisfies both
conditions yet `subtract_from_rewards_pool` fails with
`ArithmeticOverflow`, because `total_distributed.checked_add(amount)`
overflows. -/
theorem subtract_from_rewards_pool_not_iff :
    0 < 1 ∧ 1 ≤ c1t.user_rewards_pool ∧
    c1t.subtract_from_rewards_pool 1 =
      Except.error GamingRewardsError.ArithmeticOverflow := by
  exact ⟨by decide, by decide, by rfl⟩

/-- C1 as amended: `subtract_from_rewards_pool` succeeds if and only if
`amount > 0`, `amount ≤ user_rewards_pool`, and additionally
`total_distributed + amount` fits in a u64; it fails with
`InsufficientRewardsPool` when the pool is too small; on success the pool
decreases by exactly `amount` (never below zero, since `amount` is at most
the pool), `total_distributed` increases by exactly `amount` and hence is
monotone non-decreasing, and the other balance fields are untouched. -/
theorem subtract_from_rewards_pool_spec (t : Treasury) (amount : Nat) :
    ((∃ u, t.subtract_from_rewards_pool amount = Except.ok u) ↔
      0 < amount ∧ amount ≤ t.user_rewards_pool ∧
        t.total_distributed + amount < U64) ∧
    (0 < amount → t.user_rewards_pool < amount →
      t.subtract_from_rewards_pool amount =
        Except.error GamingRewardsError.InsufficientRewardsPool) ∧
    (∀ u, t.subtract_from_rewards_pool amount = Except.ok u →
      u.user_rewards_pool = t.user_rewards_pool - amount ∧
      amount ≤ t.user_rewards_pool ∧
      u.total_distributed = t.total_distributed + amount ∧
      u.treasury_reserve = t.treasury_reserve ∧
      u.total_balance = t.total_balance ∧
      t.total_distributed ≤ u.total_distributed) := by
  rw [subtract_from_rewards_pool_eq]
  by_cases h0 : 0 < amount <;> by_cases hp : amount ≤ t.user_rewards_pool <;>
    by_cases ho : t.total_distributed + amount < U64 <;>
    simp [h0, hp, ho]

/-- Treasury used by the C1 and C2 witnesses: a pool of 500000 as produced by
the spec's harvest example. -/
def w1t : Treasury :=
  { treasuryZero with total_balance := 1000000, user_rewards_pool := 500000
                      treasury_reserve := 500000 }

/-- Result of the successful 400000 claim in the C1 witness. -/
def w1post : Treasury :=
  { w1t with user_rewards_pool := 100000, total_distributed := 400000 }

/-- Witness for `subtract_from_rewards_pool_spec` at the spec's own example:
on a pool of 500000 a claim of 600000 fails with `InsufficientRewardsPool`,
and a claim of 400000 succeeds leaving the pool at 100000. -/
theorem subtract_from_rewards_pool_spec_witness :
    w1t.subtract_from_rewards_pool 600000 =
      Except.error GamingRewardsError.InsufficientRewardsPool ∧
    w1post.user_rewards_pool = w1t.user_rewards_pool - 400000 ∧
    w1post.total_distributed = w1t.total_distributed + 400000 := by
  refine ⟨(subtract_from_rewards_pool_spec w1t 600000).2.1 (by decide) (by decide), ?_, ?_⟩
  · exact ((subtract_from_rewards_pool_spec w1t 400000).2.2 w1post (by rfl)).1
  · exact ((subtract_from_rewards_pool_spec w1t 400000).2.2 w1post (by rfl)).2.2.1

/-- Unfolded form of `Treasury.add_yield`: the three checked additions in
source order, with the user share computed by the wrapping multiplication. -/
theorem add_yield_eq (t : Treasury) (y : Nat) :
    t.add_yield y =
      if 0 < y then
        if t.user_rewards_pool + wrapMul64 y 50 / 100 < U64 then
          if t.treasury_reserve + (y - wrapMul64 y 50 / 100) < U64 then
            if t.total_balance + y < U64 then
              Except.ok
                { t with
                  user_rewards_pool := t.user_rewards_pool + wrapMul64 y 50 / 100
                  treasury_reserve := t.treasury_reserve + (y - wrapMul64 y 50 / 100)
                  total_balance := t.total_balance + y }
            else Except.error GamingRewardsError.ArithmeticOverflow
          else Except.error GamingRewardsError.ArithmeticOverflow
        else Except.error GamingRewardsError.ArithmeticOverflow
      else Except.error GamingRewardsError.InvalidYieldAmount := by
  unfold Treasury.add_yield checkedAdd64
  by_cases h0 : 0 < y <;>
    by_cases h1 : t.user_rewards_pool + wrapMul64 y 50 / 100 < U64 <;>
    by_cases h2 : t.treasury_reserve + (y - wrapMul64 y 50 / 100) < U64 <;>
    by_cases h3 : t.total_balance + y < U64 <;>
    simp [h0, h1, h2, h3]

/-- C2 counterexample: claim C2 states that for every `yield_amount > 0` the
user pool gains the floor half `yield_amount * 50 / 100`.  The source
computes `yield_amount * 50` with an unchecked u64 multiplication, which
wraps: at `yield_amount = 2 ^ 63` the wrapped product is
`(2 ^ 63 * 50) % 2 ^ 64 = 0`, so `add_yield` succeeds on the zero treasury
while the pool gains 0 instead of the floor half `2 ^ 62`. -/
theorem add_yield_not_half_split_on_mul_wrap :
    0 < 2 ^ 63 ∧
    (treasuryZero.add_yield (2 ^ 63)).map Treasury.user_rewards_pool =
      Except.ok 0 ∧
    2 ^ 63 * 50 / 100 = 2 ^ 62 ∧
    (0 : Nat) ≠ 2 ^ 62 := by
  exact ⟨by decide, by rfl, by decide, by decide⟩

/-- C2 as amended: for every treasury and every `yield_amount > 0` whose
product `yield_amount * 50` still fits in a u64 (so the unchecked
multiplication does not wrap), `add_yield` credits the floor half
`yield_amount * 50 / 100` to the user pool and the remainder to the reserve,
succeeds exactly when none of the three checked balance additions overflows,
and fails with `ArithmeticOverflow` otherwise. -/
theorem add_yield_spec (t : Treasury) (y : Nat) (hy : 0 < y)
    (hmul : y * 50 < U64) :
    (∀ u, t.add_yield y = Except.ok u →
      u.user_rewards_pool = t.user_rewards_pool + y * 50 / 100 ∧
      u.treasury_reserve = t.treasury_reserve + (y - y * 50 / 100) ∧
      u.total_balance = t.total_balance + y ∧
      u.total_distributed = t.total_distributed) ∧
    ((∃ u, t.add_yield y = Except.ok u) ↔
      t.user_rewards_pool + y * 50 / 100 < U64 ∧
      t.treasury_reserve + (y - y * 50 / 100) < U64 ∧
      t.total_balance + y < U64) ∧
    (¬ (t.user_rewards_pool + y * 50 / 100 < U64 ∧
        t.treasury_reserve + (y - y * 50 / 100) < U64 ∧
        t.total_balance + y < U64) →
      t.add_yield y = Except.error GamingRewardsError.ArithmeticOverflow) := by
  have hw : wrapMul64 y 50 = y * 50 := by
    unfold wrapMul64
    exact Nat.mod_eq_of_lt hmul
  rw [add_yield_eq, hw]
  by_cases h1 : t.user_rewards_pool + y * 50 / 100 < U64 <;>
    by_cases h2 : t.treasury_reserve + (y - y * 50 / 100) < U64 <;>
    by_cases h3 : t.total_balance + y < U64 <;>
    simp [hy, h1, h2, h3]

/-- Witness for `add_yield_spec` at the spec's harvest example: harvesting
1000000 units into the empty treasury credits exactly 500000 to the user
pool and 500000 to the reserve (the resulting state is `w1t`). -/
theorem add_yield_spec_witness :
    w1t.user_rewards_pool = treasuryZero.user_rewards_pool + 1000000 * 50 / 100 ∧
    w1t.treasury_reserve = treasuryZero.treasury_reserve + (1000000 - 1000000 * 50 / 100) ∧
    w1t.user_rewards_pool = 500000 ∧
    w1t.treasury_reserve = 500000 := by
  have h := (add_yield_spec treasuryZero 1000000 (by decide) (by decide)).1 w1t (by rfl)
  exact ⟨h.1, h.2.1, by decide, by decide⟩

/-- Treasury whose rewards pool exceeds `MAX_CLAIM_AMOUNT` by one unit. -/
def c3treasury : Treasury :=
  { treasuryZero with total_balance := MAX_CLAIM_AMOUNT + 1
                      user_rewards_pool := MAX_CLAIM_AMOUNT + 1 }

/-- Fresh user reward account inside an open rate-limit window at time
10000 (window started at 10000, no prior claims). -/
def c3user : UserReward :=
  { user := 7, total_claimed := 0, last_claim_timestamp := 0
    claims_in_window := 0, window_start_timestamp := 10000, is_staking := false
    staking_start_timestamp := 0, staked_amount := 0, reputation_score := 0
    achievements_verified := 0, bump := 0 }

/-- Active oracle holding exactly the minimum stake. -/
def c3oracle : OracleAccount :=
  { oracle := 1, stake_amount := MIN_ORACLE_STAKE, reputation_score := 100
    successful_verifications := 0, failed_verifications := 0
    last_verification_timestamp := 0, status := OracleStatus.Active
    slash_count := 0, last_slash_timestamp := 0, bump := 0 }

/-- C3: the failing input of the claim-cap check.  `claim_reward::handler`
validates only `claim_amount > 0` and `claim_amount ≤ user_rewards_pool`;
the constant `MAX_CLAIM_AMOUNT` of `constants.rs` (documented there as the
maximum claim amount per transaction) is never consulted.  With a
sufficiently funded pool, a claim of `MAX_CLAIM_AMOUNT + 1` passes the
entire validation chain of the handler and the subsequent treasury debit
also succeeds, draining the pool to 0. -/
theorem claim_reward_accepts_amount_above_max :
    MAX_CLAIM_AMOUNT < MAX_CLAIM_AMOUNT + 1 ∧
    claim_reward_validate c3treasury c3user c3oracle 10000 10000 true
      (MAX_CLAIM_AMOUNT + 1) = Except.ok c3user ∧
    (c3treasury.subtract_from_rewards_pool (MAX_CLAIM_AMOUNT + 1)).map
      Treasury.user_rewards_pool = Except.ok 0 := by
  exact ⟨by decide, by rfl, by rfl⟩

/-- Successful `validate_claim` calls leave `claims_in_window` strictly
below the cap, and either perform the full window reset (when the window
has elapsed) or leave the account exactly as it was. -/
theorem validate_claim_ok_cases (u : UserReward) (now : Int) (v : UserReward)
    (h : u.validate_claim now = Except.ok v) :
    v.claims_in_window < MAX_CLAIMS_PER_WINDOW ∧
    ((CLAIM_RATE_LIMIT_WINDOW ≤ now - u.window_start_timestamp ∧
      v = { u with claims_in_window := 0, window_start_timestamp := now }) ∨
     (now - u.window_start_timestamp < CLAIM_RATE_LIMIT_WINDOW ∧ v = u)) := by
  unfold UserReward.validate_claim at h
  by_cases hw : CLAIM_RATE_LIMIT_WINDOW ≤ now - u.window_start_timestamp
  · simp only [if_pos hw] at h
    by_cases hs : MIN_TIME_BETWEEN_CLAIMS ≤ now -
        ({ u with claims_in_window := 0,
                  window_start_timestamp := now } : UserReward).last_claim_timestamp
    · simp [hs, MAX_CLAIMS_PER_WINDOW] at h
      subst h
      exact ⟨by simp [MAX_CLAIMS_PER_WINDOW], Or.inl ⟨hw, rfl⟩⟩
    · simp [hs, MAX_CLAIMS_PER_WINDOW] at h
  · simp only [if_neg hw] at h
    by_cases hc : u.claims_in_window < MAX_CLAIMS_PER_WINDOW
    · by_cases hs : MIN_TIME_BETWEEN_CLAIMS ≤ now - u.last_claim_timestamp
      · simp [hc, hs] at h
        subst h
        exact ⟨hc, Or.inr ⟨by omega, rfl⟩⟩
      · simp [hc, hs] at h
    · simp [hc] at h

/-- When the window count is strictly below the cap (in particular below
`u32::MAX`), `update_claim` increments it by exactly one. -/
theorem update_claim_increments (v : UserReward) (amount : Nat) (now : Int)
    (hlt : v.claims_in_window < MAX_CLAIMS_PER_WINDOW) :
    (v.update_claim amount now).claims_in_window = v.claims_in_window + 1 := by
  have h32 : v.claims_in_window + 1 < U32 := by
    unfold MAX_CLAIMS_PER_WINDOW at hlt
    unfold U32
    omega
  unfold UserReward.update_claim checkedAdd32
  simp [h32]

/-- A successful claim step (validate then update) ends with at most
`MAX_CLAIMS_PER_WINDOW` claims recorded in the window. -/
theorem claim_step_ok_bound (u : UserReward) (amount : Nat) (now : Int)
    (v : UserReward) (h : claim_step u amount now = Except.ok v) :
    v.claims_in_window ≤ MAX_CLAIMS_PER_WINDOW := by
  unfold claim_step at h
  cases hv : u.validate_claim now with
  | error e => rw [hv] at h; exact absurd h (by simp)
  | ok w =>
    rw [hv] at h
    have hw := (validate_claim_ok_cases u now w hv).1
    have : v = w.update_claim amount now := by
      simpa using h.symm
    rw [this, update_claim_increments w amount now hw]
    omega

/-- The claims-in-window bound is preserved by every sequence of claim
attempts (failures roll back). -/
theorem run_claims_bound (steps : List (Nat × Int)) :
    ∀ u : UserReward, u.claims_in_window ≤ MAX_CLAIMS_PER_WINDOW →
      (run_claims u steps).claims_in_window ≤ MAX_CLAIMS_PER_WINDOW := by
  induction steps with
  | nil => intro u hu; exact hu
  | cons s rest ih =>
    intro u hu
    have hstep : run_claims u (s :: rest) =
        run_claims
          (match claim_step u s.1 s.2 with
           | .ok v => v
           | .error _ => u) rest := rfl
    rw [hstep]
    cases hc : claim_step u s.1 s.2 with
    | ok v =>
      simp only [hc]
      exact ih v (claim_step_ok_bound u s.1 s.2 v hc)
    | error e =>
      simp only [hc]
      exact ih u hu

/-- C4: across every sequence of claim validations and updates the window
count never exceeds `MAX_CLAIMS_PER_WINDOW` (starting from any state within
the bound, in particular the zero-initialized account); a successful
`validate_claim` resets the count to zero and restamps the window start
exactly when `now - window_start_timestamp ≥ CLAIM_RATE_LIMIT_WINDOW`, and
otherwise leaves the account completely unchanged (never a partial
reduction); and a single successful validate-then-update step always lands
at or below the cap. -/
theorem claims_in_window_spec :
    (∀ (u : UserReward) (steps : List (Nat × Int)),
      u.claims_in_window ≤ MAX_CLAIMS_PER_WINDOW →
      (run_claims u steps).claims_in_window ≤ MAX_CLAIMS_PER_WINDOW) ∧
    (∀ (u : UserReward) (now : Int) (v : UserReward),
      u.validate_claim now = Except.ok v →
      (CLAIM_RATE_LIMIT_WINDOW ≤ now - u.window_start_timestamp →
        v = { u with claims_in_window := 0, window_start_timestamp := now }) ∧
      (now - u.window_start_timestamp < CLAIM_RATE_LIMIT_WINDOW → v = u)) ∧
    (∀ (u : UserReward) (amount : Nat) (now : Int) (v : UserReward),
      claim_step u amount now = Except.ok v →
      v.claims_in_window ≤ MAX_CLAIMS_PER_WINDOW) := by
  refine ⟨fun u steps hu => run_claims_bound steps u hu, ?_, claim_step_ok_bound⟩
  intro u now v h
  rcases (validate_claim_ok_cases u now v h).2 with ⟨hw, hv⟩ | ⟨hw, hv⟩
  · exact ⟨fun _ => hv, fun hlt => absurd hw (by omega)⟩
  · exact ⟨fun hge => absurd hw (by omega), fun _ => hv⟩

/-- Account with seven claims in a window that started at time 0. -/
def w4r : UserReward :=
  { c3user with window_start_timestamp := 0, claims_in_window := 7 }

/-- Witness for `claims_in_window_spec`: a concrete claim attempt stays
within the cap, and a concrete validation at time 10000 on a window opened
at time 0 performs the full reset. -/
theorem claims_in_window_spec_witness :
    (run_claims c3user [(5, 10000)]).claims_in_window ≤ MAX_CLAIMS_PER_WINDOW ∧
    ({ w4r with claims_in_window := 0, window_start_timestamp := 10000 } :
        UserReward) =
      { w4r with claims_in_window := 0, window_start_timestamp := 10000 } := by
  refine ⟨claims_in_window_spec.1 c3user [(5, 10000)] (by decide), ?_⟩
  exact (claims_in_window_spec.2.1 w4r 10000 _ (by rfl)).1 (by decide)

/-- User reward account whose lifetime total sits at `u64::MAX`. -/
def c5u : UserReward :=
  { user := 1, total_claimed := U64 - 1, last_claim_timestamp := 0
    claims_in_window := 3, window_start_timestamp := 0, is_staking := false
    staking_start_timestamp := 0, staked_amount := 0, reputation_score := 0
    achievements_verified := 0, bump := 0 }

/-- C5: the failing input of the atomic-abort rule.  When
`total_claimed + amount` overflows a u64, `update_claim` does not abort: the
`checked_add(..).unwrap_or(old)` silently keeps `total_claimed` unchanged
while the same call still overwrites `last_claim_timestamp` and increments
`claims_in_window`, a partial write on a money counter with no error
reported. -/
theorem update_claim_silent_partial_write :
    U64 ≤ c5u.total_claimed + 1 ∧
    (c5u.update_claim 1 5000).total_claimed = c5u.total_claimed ∧
    (c5u.update_claim 1 5000).last_claim_timestamp = 5000 ∧
    (c5u.update_claim 1 5000).claims_in_window = c5u.claims_in_window + 1 := by
  exact ⟨by decide, by rfl, by rfl, by rfl⟩

/-- Unfolded form of `OracleAccount.slash`: the guarded stake subtraction
cannot fail, so the branches are the stake guard, the `slash_count`
overflow, and the minimum-stake status downgrade. -/
theorem slash_eq (o : OracleAccount) (amount : Nat) :
    o.slash amount =
      if amount ≤ o.stake_amount then
        if o.slash_count + 1 < U32 then
          if o.stake_amount - amount < MIN_ORACLE_STAKE then
            Except.ok
              ({ o with
                  stake_amount := o.stake_amount - amount,
                  slash_count := o.slash_count + 1,
                  status := OracleStatus.Slashed }, amount)
          else
            Except.ok
              ({ o with
                  stake_amount := o.stake_amount - amount,
                  slash_count := o.slash_count + 1 }, amount)
        else Except.error GamingRewardsError.ArithmeticOverflow
      else Except.error GamingRewardsError.InsufficientStakeToSlash := by
  unfold OracleAccount.slash checkedSub checkedAdd32
  by_cases h1 : amount ≤ o.stake_amount <;>
    by_cases h2 : o.slash_count + 1 < U32 <;>
    by_cases h3 : o.stake_amount - amount < MIN_ORACLE_STAKE <;>
    simp [h1, h2, h3]

/-- Oracle at exactly the minimum stake, active, reputation 99. -/
def c6pre : OracleAccount :=
  { oracle := 2, stake_amount := MIN_ORACLE_STAKE, reputation_score := 99
    successful_verifications := 0, failed_verifications := 0
    last_verification_timestamp := 0, status := OracleStatus.Active
    slash_count := 0, last_slash_timestamp := 0, bump := 0 }

/-- State of `c6pre` after a full slash of its stake. -/
def c6mid : OracleAccount :=
  { c6pre with stake_amount := 0, slash_count := 1
               status := OracleStatus.Slashed }

/-- C6 counterexample: claim C6 states that across every sequence of
`slash`, `update_reputation` and `validate_stake` calls,
`stake_amount < MIN_ORACLE_STAKE` always implies `status = Slashed`.
Concretely: slashing the full stake of the active oracle `c6pre` yields
`c6mid` (stake 0, status `Slashed`, so the implication holds there), but one
subsequent successful `update_reputation` lifts the reputation from 99 to
100 and — since the status update looks only at the reputation — sets the
status back to `Active` while the stake is still 0, breaking the
invariant. -/
theorem update_reputation_reactivates_understaked :
    c6pre.slash 1000000000 = Except.ok (c6mid, 1000000000) ∧
    c6mid.stake_amount < MIN_ORACLE_STAKE ∧
    c6mid.status = OracleStatus.Slashed ∧
    (c6mid.update_reputation true).stake_amount < MIN_ORACLE_STAKE ∧
    (c6mid.update_reputation true).status = OracleStatus.Active ∧
    OracleStatus.Active ≠ OracleStatus.Slashed := by
  exact ⟨by rfl, by decide, by rfl, by decide, by rfl, by decide⟩

/-- C6 as amended: `slash(amount)` fails with `InsufficientStakeToSlash`
when `amount` exceeds the stake; on success the stake decreases by exactly
`amount` (never below zero), `slash_count` increments by one, the slashed
amount is returned, and the status is `Slashed` whenever the remaining
stake is below `MIN_ORACLE_STAKE` (otherwise unchanged) — so the invariant
`stake < MIN_ORACLE_STAKE → status = Slashed` holds immediately after every
successful `slash` and is preserved by `validate_stake` (which mutates
nothing), but not by `update_reputation`, which rewrites the status from
the reputation alone (see `update_reputation_reactivates_understaked`). -/
theorem slash_spec (o : OracleAccount) (amount : Nat) :
    (o.stake_amount < amount →
      o.slash amount = Except.error GamingRewardsError.InsufficientStakeToSlash) ∧
    (∀ o1 r, o.slash amount = Except.ok (o1, r) →
      amount ≤ o.stake_amount ∧
      o1.stake_amount = o.stake_amount - amount ∧
      o1.slash_count = o.slash_count + 1 ∧
      r = amount ∧
      (o1.stake_amount < MIN_ORACLE_STAKE → o1.status = OracleStatus.Slashed) ∧
      (MIN_ORACLE_STAKE ≤ o1.stake_amount → o1.status = o.status) ∧
      o1.reputation_score = o.reputation_score) := by
  rw [slash_eq]
  by_cases h1 : amount ≤ o.stake_amount
  · by_cases h2 : o.slash_count + 1 < U32
    · by_cases h3 : o.stake_amount - amount < MIN_ORACLE_STAKE
      · simp only [if_pos h1, if_pos h2, if_pos h3]
        refine ⟨fun hlt => absurd h1 (by omega), ?_⟩
        intro o1 r h
        simp only [Except.ok.injEq, Prod.mk.injEq] at h
        obtain ⟨ho1, hr⟩ := h
        subst ho1
        subst hr
        exact ⟨h1, rfl, rfl, rfl, fun _ => rfl,
          fun hmin => absurd h3 (not_lt.mpr (by simpa using hmin)), rfl⟩
      · simp only [if_pos h1, if_pos h2, if_neg h3]
        refine ⟨fun hlt => absurd h1 (by omega), ?_⟩
        intro o1 r h
        simp only [Except.ok.injEq, Prod.mk.injEq] at h
        obtain ⟨ho1, hr⟩ := h
        subst ho1
        subst hr
        exact ⟨h1, rfl, rfl, rfl,
          fun hlt => absurd (show o.stake_amount - amount < MIN_ORACLE_STAKE by
            simpa using hlt) h3,
          fun _ => rfl, rfl⟩
    · simp only [if_pos h1, if_neg h2]
      exact ⟨fun hlt => absurd h1 (by omega),
        fun o1 r h => absurd h (by simp)⟩
  · simp only [if_neg h1]
    exact ⟨fun _ => by simp, fun o1 r h => absurd h (by simp)⟩

/-- Oracle with twice the minimum stake. -/
def c6w : OracleAccount :=
  { c6pre with stake_amount := 2 * MIN_ORACLE_STAKE }

/-- State of `c6w` after a slash of 1500000000. -/
def c6wpost : OracleAccount :=
  { c6w with stake_amount := 500000000, slash_count := 1
             status := OracleStatus.Slashed }

/-- Witness for `slash_spec`: an oracle with twice the minimum stake slashed
by one and a half minimum stakes ends at half the minimum with status
`Slashed`. -/
theorem slash_spec_witness :
    c6w.slash 1500000000 = Except.ok (c6wpost, 1500000000) ∧
    c6wpost.stake_amount = c6w.stake_amount - 1500000000 ∧
    c6wpost.slash_count = c6w.slash_count + 1 ∧
    c6wpost.status = OracleStatus.Slashed := by
  have h := (slash_spec c6w 1500000000).2 c6wpost 1500000000 (by rfl)
  exact ⟨by rfl, h.2.1, h.2.2.1, h.2.2.2.2.1 (by decide)⟩

/-- Status-update phase preserves the reputation and all non-status fields. -/
theorem statusFromReputation_fields (o : OracleAccount) :
    (statusFromReputation o).reputation_score = o.reputation_score ∧
    (statusFromReputation o).successful_verifications = o.successful_verifications ∧
    (statusFromReputation o).failed_verifications = o.failed_verifications ∧
    (statusFromReputation o).stake_amount = o.stake_amount := by
  unfold statusFromReputation
  by_cases h1 : o.reputation_score < 50 <;>
    by_cases h2 : ORACLE_REPUTATION_THRESHOLD ≤ o.reputation_score <;>
    simp [h1, h2]

/-- Status-update phase: `Suspended` below 50, `Active` at or above the
threshold, untouched in between. -/
theorem statusFromReputation_status (o : OracleAccount) :
    (o.reputation_score < 50 →
      (statusFromReputation o).status = OracleStatus.Suspended) ∧
    (ORACLE_REPUTATION_THRESHOLD ≤ o.reputation_score →
      (statusFromReputation o).status = OracleStatus.Active) ∧
    (50 ≤ o.reputation_score → o.reputation_score < ORACLE_REPUTATION_THRESHOLD →
      (statusFromReputation o).status = o.status) := by
  unfold statusFromReputation ORACLE_REPUTATION_THRESHOLD
  by_cases h1 : o.reputation_score < 50 <;>
    by_cases h2 : 100 ≤ o.reputation_score <;>
    simp [h1, h2] <;> omega

/-- Understaked but highly reputed oracle with `Inactive` prior status. -/
def c7a : OracleAccount :=
  { oracle := 3, stake_amount := MIN_ORACLE_STAKE, reputation_score := 59
    successful_verifications := 0, failed_verifications := 0
    last_verification_timestamp := 0, status := OracleStatus.Inactive
    slash_count := 0, last_slash_timestamp := 0, bump := 0 }

/-- Same account as `c7a` but with `Active` prior status. -/
def c7b : OracleAccount :=
  { c7a with status := OracleStatus.Active }

/-- C7 counterexample: claim C7 states that after every `update_reputation`
the resulting status is a pure function of the new reputation value alone.
The accounts `c7a` and `c7b` differ only in their prior status; after one
successful verification both reach reputation 60, which lies in the band
`[50, ORACLE_REPUTATION_THRESHOLD)` where the source leaves the status
untouched — so the two results carry the same reputation but different
statuses, and the status does depend on the prior history. -/
theorem update_reputation_status_depends_on_history :
    (c7a.update_reputation true).reputation_score =
      (c7b.update_reputation true).reputation_score ∧
    (c7a.update_reputation true).status = OracleStatus.Inactive ∧
    (c7b.update_reputation true).status = OracleStatus.Active ∧
    OracleStatus.Inactive ≠ OracleStatus.Active := by
  exact ⟨by rfl, by rfl, by rfl, by decide⟩

/-- C7 as amended: `record_verification(success)` increments the successful
counter and the reputation by one on success and, on failure, increments
the failed counter and decrements the reputation with a floor at zero
(the counter increments hold whenever the u32 counters have not satur-
ated, which the hypotheses state); afterwards the status is `Suspended`
when the new reputation is below 50 and `Active` when it is at least
`ORACLE_REPUTATION_THRESHOLD`, but for a new reputation inside
`[50, ORACLE_REPUTATION_THRESHOLD)` the prior status is retained, so the
resulting status is a pure function of the new reputation only outside that
band. -/
theorem update_reputation_spec (o : OracleAccount) (success : Bool)
    (hs : o.successful_verifications + 1 < U32)
    (hf : o.failed_verifications + 1 < U32)
    (hr : o.reputation_score + 1 < U32) :
    ((o.update_reputation success).reputation_score =
      if success then o.reputation_score + 1 else o.reputation_score - 1) ∧
    ((o.update_reputation success).successful_verifications =
      if success then o.successful_verifications + 1
      else o.successful_verifications) ∧
    ((o.update_reputation success).failed_verifications =
      if success then o.failed_verifications
      else o.failed_verifications + 1) ∧
    ((o.update_reputation success).reputation_score < 50 →
      (o.update_reputation success).status = OracleStatus.Suspended) ∧
    (ORACLE_REPUTATION_THRESHOLD ≤ (o.update_reputation success).reputation_score →
      (o.update_reputation success).status = OracleStatus.Active) ∧
    (50 ≤ (o.update_reputation success).reputation_score →
      (o.update_reputation success).reputation_score < ORACLE_REPUTATION_THRESHOLD →
      (o.update_reputation success).status = o.status) := by
  cases success with
  | true =>
    have hgoal : o.update_reputation true =
        statusFromReputation
          { o with
              successful_verifications := o.successful_verifications + 1,
              reputation_score := o.reputation_score + 1 } := by
      unfold OracleAccount.update_reputation checkedAdd32
      simp [hs, hr]
    rw [hgoal]
    have h1 := statusFromReputation_fields
      { o with
          successful_verifications := o.successful_verifications + 1,
          reputation_score := o.reputation_score + 1 }
    have h2 := statusFromReputation_status
      { o with
          successful_verifications := o.successful_verifications + 1,
          reputation_score := o.reputation_score + 1 }
    refine ⟨by simpa using h1.1, by simpa using h1.2.1, by simpa using h1.2.2.1,
      ?_, ?_, ?_⟩
    · intro h
      exact h2.1 (by rw [h1.1] at h; exact h)
    · intro h
      exact h2.2.1 (by rw [h1.1] at h; exact h)
    · intro ha hb
      exact h2.2.2 (by rw [h1.1] at ha; exact ha) (by rw [h1.1] at hb; exact hb)
  | false =>
    have hgoal : o.update_reputation false =
        statusFromReputation
          { o with
              failed_verifications := o.failed_verifications + 1,
              reputation_score := o.reputation_score - 1 } := by
      unfold OracleAccount.update_reputation checkedAdd32
      simp [hf]
    rw [hgoal]
    have h1 := statusFromReputation_fields
      { o with
          failed_verifications := o.failed_verifications + 1,
          reputation_score := o.reputation_score - 1 }
    have h2 := statusFromReputation_status
      { o with
          failed_verifications := o.failed_verifications + 1,
          reputation_score := o.reputation_score - 1 }
    refine ⟨by simpa using h1.1, by simpa using h1.2.1, by simpa using h1.2.2.1,
      ?_, ?_, ?_⟩
    · intro h
      exact h2.1 (by rw [h1.1] at h; exact h)
    · intro h
      exact h2.2.1 (by rw [h1.1] at h; exact h)
    · intro ha hb
      exact h2.2.2 (by rw [h1.1] at ha; exact ha) (by rw [h1.1] at hb; exact hb)

/-- Witness for `update_reputation_spec`: one failed verification on `c7a`
(reputation 59) drops the reputation to 58 and bumps the failed counter. -/
theorem update_reputation_spec_witness :
    (c7a.update_reputation false).reputation_score =
      (if false then c7a.reputation_score + 1 else c7a.reputation_score - 1) ∧
    (c7a.update_reputation false).failed_verifications =
      (if false then c7a.failed_verifications else c7a.failed_verifications + 1) := by
  have h := update_reputation_spec c7a false (by decide) (by decide) (by decide)
  exact ⟨h.1, h.2.2.1⟩

/-- Under the non-fraud, matching-id, non-empty-signature and freshness
preconditions (and short of the `total_verifications` u64 saturation point),
`verify_steam_session` succeeds and returns the profile with the session
marked valid, the verification time recorded and `total_verifications`
incremented — and no other field changed. -/
theorem verify_steam_session_ok (p : UserVerificationProfile)
    (ticket : SteamSessionTicket) (sig : List Nat) (now : Int)
    (hfraud : p.fraud_detected = false)
    (hid : ticket.steam_id = p.steam_id)
    (hsig : sig ≠ [])
    (h1 : ticket.timestamp ≤ now)
    (h2 : now - MAX_VERIFICATION_AGE ≤ ticket.timestamp)
    (htv : p.total_verifications + 1 < U64) :
    p.verify_steam_session ticket sig now =
      Except.ok ({ p with steam_session_valid := true, last_verification := now,
                          total_verifications := p.total_verifications + 1 },
                 true) := by
  unfold UserVerificationProfile.verify_steam_session checkedAdd64
  simp [hfraud, hid, hsig, h1, h2, htv]

/-- Under the non-fraud, matching-id, matching-wallet, non-empty-signature
and freshness preconditions, `verify_oauth_wallet` succeeds and returns the
profile with the wallet linked, the level bumped by the saturating add, and
the verification time recorded. -/
theorem verify_oauth_wallet_ok (p : UserVerificationProfile)
    (d : OAuthWalletSignature) (now : Int)
    (hfraud : p.fraud_detected = false)
    (hid : d.steam_id = p.steam_id)
    (hw : d.wallet_pubkey = p.wallet_pubkey)
    (hsig : d.signature ≠ [])
    (h1 : d.timestamp ≤ now)
    (h2 : now - MAX_VERIFICATION_AGE ≤ d.timestamp) :
    p.verify_oauth_wallet d now =
      Except.ok ({ p with oauth_wallet_linked := true,
                          verification_level := satAdd8 p.verification_level 1,
                          last_verification := now }, true) := by
  unfold UserVerificationProfile.verify_oauth_wallet
  simp [hfraud, hid, hw, hsig, h1, h2]

/-- Fresh verification profile for steam id 42 (nothing verified yet). -/
def c8p : UserVerificationProfile :=
  { user := 11, steam_id := 42, wallet_pubkey := 5, verification_level := 0
    steam_session_valid := false, oauth_wallet_linked := false
    zkp_attestations := [], multi_factor_score := 0, last_verification := 0
    total_verifications := 0, fraud_detected := false }

/-- Matching, fresh session ticket for `c8p` at clock time 100. -/
def c8t : SteamSessionTicket :=
  { ticket := [1], steam_id := 42, timestamp := 90, session_id := [2] }

/-- C8 counterexample: claim C8 states that a successful `verify_session`
advances `verification_level`.  On the fresh profile `c8p` and the
matching, fresh, oracle-signed ticket `c8t` the call succeeds, sets
`steam_session_valid` and bumps `total_verifications`, yet
`verification_level` stays at 0: the source method never touches that
field (unlike its three sibling methods). -/
theorem verify_steam_session_level_unchanged :
    c8p.fraud_detected = false ∧
    c8t.steam_id = c8p.steam_id ∧
    c8t.timestamp ≤ 100 ∧
    (100 : Int) - MAX_VERIFICATION_AGE ≤ c8t.timestamp ∧
    c8p.verify_steam_session c8t [7] 100 =
      Except.ok ({ c8p with steam_session_valid := true
                            last_verification := 100
                            total_verifications := 1 }, true) ∧
    ({ c8p with steam_session_valid := true, last_verification := 100,
                total_verifications := 1 } :
        UserVerificationProfile).verification_level = c8p.verification_level := by
  exact ⟨by rfl, by rfl, by decide, by decide, by rfl, by rfl⟩

/-- C8 as amended: for every non-fraudulent profile and every session
ticket matching the profile's steam id, carrying a non-empty oracle
signature and a timestamp neither in the future nor more than
`MAX_VERIFICATION_AGE` old, `verify_steam_session` succeeds (provided the
`total_verifications` counter is not at `u64::MAX`), sets
`steam_session_valid` to true and increments `total_verifications` — but
leaves `verification_level` unchanged. -/
theorem verify_steam_session_spec (p : UserVerificationProfile)
    (ticket : SteamSessionTicket) (sig : List Nat) (now : Int)
    (hfraud : p.fraud_detected = false)
    (hid : ticket.steam_id = p.steam_id)
    (hsig : sig ≠ [])
    (h1 : ticket.timestamp ≤ now)
    (h2 : now - MAX_VERIFICATION_AGE ≤ ticket.timestamp)
    (htv : p.total_verifications + 1 < U64) :
    p.verify_steam_session ticket sig now =
      Except.ok ({ p with steam_session_valid := true, last_verification := now,
                          total_verifications := p.total_verifications + 1 },
                 true) ∧
    (∀ q b, p.verify_steam_session ticket sig now = Except.ok (q, b) →
      q.verification_level = p.verification_level ∧
      q.steam_session_valid = true ∧
      q.total_verifications = p.total_verifications + 1) := by
  have hres := verify_steam_session_ok p ticket sig now hfraud hid hsig h1 h2 htv
  refine ⟨hres, ?_⟩
  intro q b h
  rw [hres] at h
  simp only [Except.ok.injEq, Prod.mk.injEq] at h
  obtain ⟨hq, -⟩ := h
  subst hq
  exact ⟨rfl, rfl, rfl⟩

/-- Witness for `verify_steam_session_spec` at the concrete profile `c8p`
and ticket `c8t`. -/
theorem verify_steam_session_spec_witness :
    c8p.verify_steam_session c8t [7] 100 =
      Except.ok ({ c8p with steam_session_valid := true
                            last_verification := 100
                            total_verifications := c8p.total_verifications + 1 },
                 true) := by
  exact (verify_steam_session_spec c8p c8t [7] 100 rfl rfl (by decide)
    (by decide) (by decide) (by decide)).1

/-- Every mutating profile call on a fraud-marked profile is rejected with
`FraudDetected` (each of the four methods checks the fraud flag first). -/
theorem applyProfileOp_fraud (p : UserVerificationProfile) (op : ProfileOp) :
    applyProfileOp p.mark_fraudulent op =
      Except.error GamingRewardsError.FraudDetected := by
  cases op <;> rfl

/-- C9: `mark_fraudulent` is idempotent — a second application leaves the
profile exactly as after the first — and permanent: on a fraud-marked
profile every one of the four mutating verification calls is rejected with
`FraudDetected`, every sequence of such calls leaves the profile exactly in
the fraud-marked state, and the eligibility query is always denied with
`FraudDetected` (in particular it never affirms eligibility). -/
theorem mark_fraudulent_idempotent_and_permanent :
    (∀ p : UserVerificationProfile,
      p.mark_fraudulent.mark_fraudulent = p.mark_fraudulent) ∧
    (∀ (p : UserVerificationProfile) (op : ProfileOp),
      applyProfileOp p.mark_fraudulent op =
        Except.error GamingRewardsError.FraudDetected) ∧
    (∀ (p : UserVerificationProfile) (ops : List ProfileOp),
      runProfileOps p.mark_fraudulent ops = p.mark_fraudulent) ∧
    (∀ p : UserVerificationProfile,
      p.mark_fraudulent.is_eligible_for_rewards =
        Except.error GamingRewardsError.FraudDetected) := by
  refine ⟨fun p => rfl, applyProfileOp_fraud, ?_, fun p => rfl⟩
  intro p ops
  induction ops with
  | nil => rfl
  | cons op rest ih =>
    have hstep : runProfileOps p.mark_fraudulent (op :: rest) =
        runProfileOps p.mark_fraudulent rest := by
      simp only [runProfileOps, List.foldl_cons, applyProfileOp_fraud p op]
    rw [hstep, ih]

/-- C10: the signature checks of the verification state machine accept any
non-empty byte string.  For every profile and session ticket satisfying the
non-fraud, id-match and freshness preconditions, `verify_steam_session`
succeeds for every non-empty `oracle_signature`; and for every OAuth/wallet
datum additionally matching the profile's wallet key,
`verify_oauth_wallet` succeeds for every non-empty `signature`.  The
quantification over arbitrary signature byte lists shows no cryptographic
relation between the signature and the canonical message is required. -/
theorem signature_checks_accept_any_nonempty_bytes :
    (∀ (p : UserVerificationProfile) (ticket : SteamSessionTicket)
        (sig : List Nat) (now : Int),
      p.fraud_detected = false →
      ticket.steam_id = p.steam_id →
      sig ≠ [] →
      ticket.timestamp ≤ now →
      now - MAX_VERIFICATION_AGE ≤ ticket.timestamp →
      p.total_verifications + 1 < U64 →
      p.verify_steam_session ticket sig now =
        Except.ok ({ p with steam_session_valid := true
                            last_verification := now
                            total_verifications := p.total_verifications + 1 },
                   true)) ∧
    (∀ (p : UserVerificationProfile) (d : OAuthWalletSignature) (now : Int),
      p.fraud_detected = false →
      d.steam_id = p.steam_id →
      d.wallet_pubkey = p.wallet_pubkey →
      d.signature ≠ [] →
      d.timestamp ≤ now →
      now - MAX_VERIFICATION_AGE ≤ d.timestamp →
      p.verify_oauth_wallet d now =
        Except.ok ({ p with oauth_wallet_linked := true
                            verification_level := satAdd8 p.verification_level 1
                            last_verification := now }, true)) := by
  exact ⟨verify_steam_session_ok, verify_oauth_wallet_ok⟩

/-- OAuth datum matching `c8p` linked to wallet key 5, fresh at time 100,
with an arbitrary one-byte signature. -/
def c10d : OAuthWalletSignature :=
  { steam_id := 42, wallet_pubkey := 5, signature := [99], message := [3]
    timestamp := 95 }

/-- Witness for `signature_checks_accept_any_nonempty_bytes`: the concrete
profile `c8p` passes both checks with arbitrary non-empty signatures. -/
theorem signature_checks_accept_any_nonempty_bytes_witness :
    c8p.verify_steam_session c8t [250] 100 =
      Except.ok ({ c8p with steam_session_valid := true
                            last_verification := 100
                            total_verifications := c8p.total_verifications + 1 },
                 true) ∧
    c8p.verify_oauth_wallet c10d 100 =
      Except.ok ({ c8p with oauth_wallet_linked := true
                            verification_level := satAdd8 c8p.verification_level 1
                            last_verification := 100 }, true) := by
  exact ⟨signature_checks_accept_any_nonempty_bytes.1 c8p c8t [250] 100 rfl rfl
      (by decide) (by decide) (by decide) (by decide),
    signature_checks_accept_any_nonempty_bytes.2 c8p c10d 100 rfl rfl rfl
      (by decide) (by decide) (by decide)⟩

end GRP
